import Mathlib

/-!
Verification development for the optsw-ctrl repository.

The repository has two source files:
* src/scpi.py — a line-oriented SCPI command socket: `send_commands`,
  `send_commands_in`, the `CustomSocket` wrapper (string `send`/`recv`
  with logging, `close`), and `connect`.
* src/optsw-ctrl.py — the control sequencer `main()` driving a function
  generator (FG) and a pulse generator (PG).

Python strings are modelled as `List Char`, byte strings as `List Nat`.
Socket activity is modelled as event traces; the trace definitions record
the socket operations a run performs, in order.
-/

/-! ### Constants (src/scpi.py lines 16-21) -/

/-- AUTORECV constant (src/scpi.py line 16). -/
def AUTORECV : Bool := true

/-- BUFSIZE constant (src/scpi.py line 17). -/
def BUFSIZE : Nat := 4096

/-- The END constant (src/scpi.py line 19), a single newline character. -/
def ENDCHAR : Char := '\n'

/-! ### Python string primitives used by the source -/

/-- Characters treated as whitespace by Python `str.strip()` within the
ASCII range (space, tab, newline, carriage return, vertical tab, form
feed, and the separator control characters 28-31).  Non-ASCII whitespace
cannot occur in ascii-encoded command text, which is the domain here. -/
def isPySpace (c : Char) : Bool :=
  c = ' ' || c = '\t' || c = '\n' || c = '\r' ||
  c = Char.ofNat 11 || c = Char.ofNat 12 ||
  c = Char.ofNat 28 || c = Char.ofNat 29 || c = Char.ofNat 30 || c = Char.ofNat 31

/-- Python `str.strip()` with no argument: remove leading and trailing
whitespace. -/
def pyStrip (s : List Char) : List Char :=
  ((s.dropWhile isPySpace).reverse.dropWhile isPySpace).reverse

/-- Python `str.startswith(p)`. -/
def pyStartsWith (p s : List Char) : Bool :=
  p.isPrefixOf s

/-- Python `str.endswith(p)`. -/
def pyEndsWith (p s : List Char) : Bool :=
  p.isSuffixOf s

/-! ### The command loop of send_commands (src/scpi.py lines 67-78)

The trace records the socket-wrapper operations invoked by the loop, in
order, for a run in which every invoked operation succeeds (the behaviour
of each single operation, including its failure modes, is modelled
separately below). -/

/-- A socket-wrapper operation invoked by the send_commands loop. -/
inductive Ev
  | send (line : List Char)
  | recv (bufsize : Nat)
deriving DecidableEq

/-- Test applied by the loop before sending (src/scpi.py line 72):
`if not command or command.startswith("#"): continue`.  Note that it is
applied to the raw, untrimmed command. -/
def skipCmd (c : List Char) : Bool :=
  c.isEmpty || pyStartsWith ['#'] c

/-- Events produced for one command of the loop body
(src/scpi.py lines 71-78): skipped commands produce nothing; otherwise
the trimmed command is sent and, if `autorecv` holds and the raw command
ends with the query marker, one receive follows. -/
def perCommand (autorecv : Bool) (bufsize : Nat) (c : List Char) : List Ev :=
  if skipCmd c then []
  else Ev.send (pyStrip c) ::
    (if autorecv && pyEndsWith ['?'] c then [Ev.recv bufsize] else [])

/-- The `for command in commands` loop of send_commands
(src/scpi.py lines 71-78), as a trace of operations. -/
def send_commands_loop (autorecv : Bool) (bufsize : Nat) : List (List Char) → List Ev
  | [] => []
  | c :: rest =>
    if skipCmd c then send_commands_loop autorecv bufsize rest
    else Ev.send (pyStrip c) ::
      ((if autorecv && pyEndsWith ['?'] c then [Ev.recv bufsize] else []) ++
        send_commands_loop autorecv bufsize rest)

/-- The `commands` argument of send_commands: either a single string or a
sequence of strings (src/scpi.py line 34). -/
inductive Commands
  | str (s : List Char)
  | seq (l : List (List Char))

/-- The `isinstance(commands, str)` normalisation
(src/scpi.py lines 67-68): a single string becomes a one-element tuple. -/
def normalizeCommands : Commands → List (List Char)
  | Commands.str s => [s]
  | Commands.seq l => l

/-- A whole-call operation, including connection management. -/
inductive CallEv
  | connect (host : List Char) (port : Nat)
  | op (e : Ev)
  | closeAttempt
deriving DecidableEq

/-- Trace of one call of send_commands (src/scpi.py lines 33-78): a fresh
connection to the host and port, the command loop, then the scoped-exit
close attempt of the `with connect(...)` block. -/
def send_commands (autorecv : Bool) (bufsize : Nat) (cmds : Commands)
    (host : List Char) (port : Nat) : List CallEv :=
  CallEv.connect host port ::
    ((send_commands_loop autorecv bufsize (normalizeCommands cmds)).map CallEv.op ++
      [CallEv.closeAttempt])

/-- Recogniser for receive events. -/
def isRecvEv : Ev → Bool
  | Ev.recv _ => true
  | Ev.send _ => false

/-! ### CustomSocket.send and logging (src/scpi.py lines 124-152)

`CustomSocket.send` builds `(string + end).encode(encoding)` and hands the
byte string to the underlying `socket.send`, returning whatever count that
call reports.  CPython documents that `socket.send` may transmit only part
of the buffer and that the caller is responsible for checking the returned
count; the parameter `accept` models how many bytes the kernel takes on
this call. -/

/-- Python `bytes` produced by `str.encode("ascii")`: one byte per
character for code points up to 127, an encode error otherwise. -/
def asciiEncode : List Char → Option (List Nat)
  | [] => some []
  | c :: rest =>
    if c.toNat ≤ 127 then (asciiEncode rest).map (fun bs => c.toNat :: bs) else none

/-- The underlying `socket.send`: transmits a prefix of the buffer whose
size is bounded by what the kernel accepts, and returns its length. -/
def osSend (accept : Nat) (data : List Nat) : Nat :=
  min accept data.length

/-- CustomSocket.send (src/scpi.py lines 124-137): append the line
terminator, ascii-encode, transmit.  Returns `none` on an encode error,
otherwise the reported byte count together with the bytes that actually
went on the wire. -/
def CustomSocket.send (accept : Nat) (s : List Char) : Option (Nat × List Nat) :=
  match asciiEncode (s ++ [ENDCHAR]) with
  | none => none
  | some encoded => some (osSend accept encoded, encoded.take (osSend accept encoded))

/-- The log line written by CustomSocket.send (src/scpi.py line 136):
the f-string interpolation of the peer address, a fixed separator, and
the sent string.  `peer` models the rendered host:port text. -/
def sendLogLine (peer s : List Char) : List Char :=
  peer ++ ([' ', '<', '-', ' '] ++ s)

/-- The log line written by CustomSocket.recv (src/scpi.py line 151). -/
def recvLogLine (peer s : List Char) : List Char :=
  peer ++ ([' ', '-', '>', ' '] ++ s)

/-! ### CustomSocket.close and the scoped-resource exit
(src/scpi.py lines 154-157, 160-188)

`close` runs `self.shutdown()` and then `super().close()`.  the CPython runtime
`socket.shutdown(how)` takes a required positional argument naming which
direction to shut down; the source passes none. -/

/-- State of one CustomSocket: whether `super().close()` has released the
underlying connection. -/
structure SockState where
  released : Bool
deriving DecidableEq

/-- Python exceptions relevant to the close path. -/
inductive PyErr
  | typeError
  | otherError
deriving DecidableEq

/-- CPython `socket.shutdown`: its `how` argument is required, so a call
that supplies no argument (`how = none` here) raises TypeError before any
socket action; a call with an argument shuts the direction down. -/
def socketShutdown (how : Option Nat) (st : SockState) : Option PyErr × SockState :=
  match how with
  | none => (some PyErr.typeError, st)
  | some _ => (none, st)

/-- CPython `socket.close` (the `super().close()` call): releases the
connection. -/
def socketCloseSuper (_ : SockState) : SockState :=
  ⟨true⟩

/-- CustomSocket.close (src/scpi.py lines 154-157): `self.shutdown()`
with no argument, then `super().close()`. -/
def CustomSocket.close (st : SockState) : Option PyErr × SockState :=
  match socketShutdown none st with
  | (some e, st1) => (some e, st1)
  | (none, st1) => (none, socketCloseSuper st1)

/-- The `with connect(host, port, timeout) as sock:` scope of
send_commands (src/scpi.py line 70): `connect` builds a fresh CustomSocket
(released = false), the body runs with outcome `bodyErr` (`none` when the
command loop finishes, `some e` when a send or receive raises partway),
and on every exit path the scope calls `sock.close()`; an exception inside
`close` propagates in place of the body outcome.  The result is the
outcome of the whole call together with the final socket state. -/
def withConnect (bodyErr : Option PyErr) : Option PyErr × SockState :=
  match CustomSocket.close ⟨false⟩ with
  | (some e, st1) => (some e, st1)
  | (none, st1) => (bodyErr, st1)

/-! ### The control sequencer, src/optsw-ctrl.py

Events of `main()` at the granularity the claims need.  The polling loop
(lines 55-58) uses plain `fg.send` / `pg.send`; the event type still has a
receive constructor so that the absence of receives is a statement about
the modelled code, not about the vocabulary. -/

/-- The two instruments. -/
inductive Dev
  | fg
  | pg
deriving DecidableEq

/-- One observable step of main(). -/
inductive CtrlEv
  | input
  | send (d : Dev) (cmd : String)
  | recvDev (d : Dev)
  | sleepSec (q : Rat)
  | replayFile (d : Dev) (path : String)
  | notice
  | closeDev (d : Dev)
deriving DecidableEq

/-- Recogniser for receive events of main(). -/
def isRecvCtrl : CtrlEv → Bool
  | CtrlEv.recvDev _ => true
  | _ => false

/-- Recogniser for the interrupted notice. -/
def isNoticeEv : CtrlEv → Bool
  | CtrlEv.notice => true
  | _ => false

/-- The error query sent in the polling loop (src/optsw-ctrl.py
lines 56-57). -/
def errQuery : String := "SYST:ERR?"

/-- FG initialization file name (src/optsw-ctrl.py lines 34 and 62). -/
def fgInitPath : String := "33500B_initialization.txt"

/-- PG initialization file name (src/optsw-ctrl.py lines 40 and 63). -/
def pgInitPath : String := "3390_initialization.txt"

/-- Modelled from the spec: `CustomSocket.send_from(path)` is invoked by
src/optsw-ctrl.py but the method is absent from src/scpi.py; per the spec
it replays the command file at `path` over the socket (file contents are
opaque here), so it is modelled as one atomic replay event. -/
def sendFrom (d : Dev) (path : String) : CtrlEv :=
  CtrlEv.replayFile d path

/-- Setup phase of main() before the try block (src/optsw-ctrl.py
lines 33-42): four FG file replays then three PG file replays. -/
def setupTrace : List CtrlEv :=
  [sendFrom Dev.fg fgInitPath,
   sendFrom Dev.fg ("33500B_1pps_signal.txt"),
   sendFrom Dev.fg ("33500B_output_for_1Hz_switch.txt"),
   sendFrom Dev.fg ("33500B_trigger_for_1Hz_switch.txt"),
   sendFrom Dev.pg pgInitPath,
   sendFrom Dev.pg ("3390_output_for_1Hz_switch_EE.txt"),
   sendFrom Dev.pg ("3390_trigger.txt")]

/-- The infinite stream of steps inside the try block of main()
(src/optsw-ctrl.py lines 46-58): the confirmation prompt, the start
commands with the 1.0 second settle delay, then the unbounded polling
loop cycling through the FG error query, the PG error query and the 10.0
second sleep. -/
def tryStream : Nat → CtrlEv
  | 0 => CtrlEv.input
  | 1 => CtrlEv.send Dev.fg ("OUTP1 ON")
  | 2 => CtrlEv.send Dev.fg ("OUTP2 ON")
  | 3 => CtrlEv.send Dev.fg ("INIT1:CONT ON")
  | 4 => CtrlEv.sleepSec 1
  | 5 => CtrlEv.send Dev.pg ("OUTP ON")
  | 6 => CtrlEv.send Dev.pg ("OUTP:TRIG ON")
  | (n+7) =>
    if n % 3 = 0 then CtrlEv.send Dev.fg errQuery
    else if n % 3 = 1 then CtrlEv.send Dev.pg errQuery
    else CtrlEv.sleepSec 10

/-- One iteration of the steady-state polling loop (src/optsw-ctrl.py
lines 55-58). -/
def loopIteration : List CtrlEv :=
  [CtrlEv.send Dev.fg errQuery, CtrlEv.send Dev.pg errQuery, CtrlEv.sleepSec 10]

/-- Trace of main() when an Operator Interrupt (EOFError or
KeyboardInterrupt) is delivered after `k` steps of the try block
(src/optsw-ctrl.py lines 32-63): the setup replays, the first `k` try
steps, then the except-handler notice (line 60), the finally-block reset
replays of the FG and PG initialization files (lines 62-63), and the
with-statement close attempts in reverse scope order (pg then fg). -/
def mainInterruptedTrace (k : Nat) : List CtrlEv :=
  setupTrace ++ ((List.range k).map tryStream ++
    [CtrlEv.notice,
     sendFrom Dev.fg fgInitPath,
     sendFrom Dev.pg pgInitPath,
     CtrlEv.closeDev Dev.pg,
     CtrlEv.closeDev Dev.fg])

/-! ### Helper lemmas -/

/-- The send_commands loop produces, in order, the concatenation of the
per-command traces. -/
theorem send_commands_loop_eq_join (autorecv : Bool) (bufsize : Nat)
    (cmds : List (List Char)) :
    send_commands_loop autorecv bufsize cmds =
      (cmds.map (perCommand autorecv bufsize)).flatten := by
  induction cmds with
  | nil => rfl
  | cons c rest ih =>
    by_cases h : skipCmd c = true
    · simp [send_commands_loop, perCommand, h, ih]
    · simp only [Bool.not_eq_true] at h
      simp [send_commands_loop, perCommand, h, ih]

/-- A single-character Python startswith test pins the head. -/
theorem pyStartsWith_char {ch : Char} {c : List Char}
    (h : pyStartsWith [ch] c = true) : ∃ t, c = ch :: t := by
  cases c with
  | nil => simp [pyStartsWith, List.isPrefixOf] at h
  | cons a t =>
    refine ⟨t, ?_⟩
    have hp : [ch] <+: a :: t := by
      have := (List.isPrefixOf_iff_prefix).mp h
      exact this
    rcases hp with ⟨u, hu⟩
    cases hu
    rfl

/-- A single-character Python endswith test pins membership of that
character. -/
theorem pyEndsWith_char_mem {ch : Char} {c : List Char}
    (h : pyEndsWith [ch] c = true) : ch ∈ c := by
  have hs : [ch] <:+ c := (List.isSuffixOf_iff_suffix).mp h
  rcases hs with ⟨u, hu⟩
  rw [← hu]
  simp

/-- Dropping while a predicate holds of every element drops everything. -/
theorem dropWhile_eq_nil_of_all {p : Char → Bool} {l : List Char}
    (h : ∀ x ∈ l, p x = true) : l.dropWhile p = [] := by
  induction l with
  | nil => rfl
  | cons a t ih =>
    rw [List.dropWhile_cons_of_pos (h a (List.mem_cons_self a t))]
    exact ih (fun x hx => h x (List.mem_cons_of_mem a hx))

/-- Stripping a string of whitespace characters yields the empty string. -/
theorem pyStrip_eq_nil_of_all_space {c : List Char}
    (h : ∀ x ∈ c, isPySpace x = true) : pyStrip c = [] := by
  unfold pyStrip
  rw [dropWhile_eq_nil_of_all h]
  rfl

/-- The try-block stream of main() never produces a receive event. -/
theorem tryStream_not_recv (k : Nat) : isRecvCtrl (tryStream k) = false := by
  rcases k with _|_|_|_|_|_|_|m
  all_goals try rfl
  simp only [tryStream]
  split
  · rfl
  · split <;> rfl

/-- The try-block stream of main() never produces the interrupted
notice. -/
theorem tryStream_not_notice (k : Nat) : isNoticeEv (tryStream k) = false := by
  rcases k with _|_|_|_|_|_|_|m
  all_goals try rfl
  simp only [tryStream]
  split
  · rfl
  · split <;> rfl

/-! ### Claim theorems -/

/-- C1: in the send_commands loop with auto_receive true, the trace is the
in-order concatenation of per-line traces; a line that is sent and ends
with the query marker contributes exactly its send immediately followed by
one receive; a line that does not end with the query marker contributes no
receive; a skipped line contributes no socket operations at all. -/
theorem scpi_c1_autorecv_query_roundtrip (bufsize : Nat)
    (cmds : List (List Char)) (c : List Char) :
    send_commands_loop true bufsize cmds =
        (cmds.map (perCommand true bufsize)).flatten
    ∧ (skipCmd c = false → pyEndsWith ['?'] c = true →
        perCommand true bufsize c = [Ev.send (pyStrip c), Ev.recv bufsize])
    ∧ (pyEndsWith ['?'] c = false →
        (perCommand true bufsize c).countP isRecvEv = 0)
    ∧ (skipCmd c = true → perCommand true bufsize c = []) := by
  refine ⟨send_commands_loop_eq_join true bufsize cmds, ?_, ?_, ?_⟩
  · intro hs hq
    simp [perCommand, hs, hq]
  · intro hq
    by_cases hs : skipCmd c = true
    · simp [perCommand, hs]
    · simp only [Bool.not_eq_true] at hs
      simp [perCommand, hs, hq, isRecvEv]
  · intro hs
    simp [perCommand, hs]

/-- Witness for C1 at concrete inputs: the query command produces a send
followed by one receive, the plain command produces no receive, and a
comment produces nothing. -/
theorem scpi_c1_autorecv_query_roundtrip_witness :
    perCommand true 4096 (['S', 'Y', 'S', 'T', ':', 'E', 'R', 'R', '?']) =
        [Ev.send (pyStrip (['S', 'Y', 'S', 'T', ':', 'E', 'R', 'R', '?'])),
         Ev.recv 4096]
    ∧ (perCommand true 4096 (['*', 'R', 'S', 'T'])).countP isRecvEv = 0
    ∧ perCommand true 4096 (['#', 'x']) = [] :=
  ⟨(scpi_c1_autorecv_query_roundtrip 4096 []
      (['S', 'Y', 'S', 'T', ':', 'E', 'R', 'R', '?'])).2.1 (by decide) (by decide),
   (scpi_c1_autorecv_query_roundtrip 4096 []
      (['*', 'R', 'S', 'T'])).2.2.1 (by decide),
   (scpi_c1_autorecv_query_roundtrip 4096 []
      (['#', 'x'])).2.2.2 (by decide)⟩

/-- C2 counterexample: for the file of the spec scenario, read as Python
reads it (each line keeps its trailing newline), the blank line is not
skipped — it is sent as an empty command, so it does produce socket
activity, refuting the trim-then-skip description. -/
theorem scpi_c2_counterexample :
    send_commands_loop true 4096
        [['*', 'R', 'S', 'T', '\n'], ['\n'],
         ['#', 'c', 'o', 'm', 'm', 'e', 'n', 't', '\n'],
         ['S', 'Y', 'S', 'T', ':', 'E', 'R', 'R', '?']] =
      [Ev.send (['*', 'R', 'S', 'T']), Ev.send [],
       Ev.send (['S', 'Y', 'S', 'T', ':', 'E', 'R', 'R', '?']), Ev.recv 4096]
    ∧ Ev.send [] ∈ send_commands_loop true 4096
        [['*', 'R', 'S', 'T', '\n'], ['\n'],
         ['#', 'c', 'o', 'm', 'm', 'e', 'n', 't', '\n'],
         ['S', 'Y', 'S', 'T', ':', 'E', 'R', 'R', '?']] := by
  decide

/-- C2 amended: the loop skips a line only when the raw, untrimmed line is
empty or starts with the comment marker; trimming is applied only to what
is sent.  Hence literally empty lines and comment lines produce no socket
activity, while every other line — including whitespace-only ones — is
sent with its whitespace stripped. -/
theorem scpi_c2_skip_untrimmed (autorecv : Bool) (bufsize : Nat)
    (c : List Char) :
    (c = [] ∨ pyStartsWith ['#'] c = true → perCommand autorecv bufsize c = [])
    ∧ (c ≠ [] → pyStartsWith ['#'] c = false →
        ∃ rest, perCommand autorecv bufsize c = Ev.send (pyStrip c) :: rest) := by
  constructor
  · rintro (rfl | h)
    · simp [perCommand, skipCmd]
    · simp [perCommand, skipCmd, h]
  · intro h1 h2
    have hs : skipCmd c = false := by
      simp [skipCmd, h1, h2]
    exact ⟨(if autorecv && pyEndsWith ['?'] c then [Ev.recv bufsize] else []),
      by simp [perCommand, hs]⟩

/-- Witness for C2 amended at concrete inputs: a comment line is skipped,
and a line with surrounding blanks is sent trimmed. -/
theorem scpi_c2_skip_untrimmed_witness :
    perCommand true 4096 (['#', 'h', 'i']) = []
    ∧ ∃ rest, perCommand true 4096 ([' ', 'a', 'b', ' ']) =
        Ev.send (pyStrip ([' ', 'a', 'b', ' '])) :: rest :=
  ⟨(scpi_c2_skip_untrimmed true 4096 (['#', 'h', 'i'])).1 (Or.inr (by decide)),
   (scpi_c2_skip_untrimmed true 4096 ([' ', 'a', 'b', ' '])).2
     (by decide) (by decide)⟩

/-- C8: passing a single string to send_commands performs exactly the same
socket operations as passing the one-element sequence holding that string,
for every string, host, port and option values. -/
theorem scpi_c8_str_seq_equiv (autorecv : Bool) (bufsize : Nat)
    (s host : List Char) (port : Nat) :
    send_commands autorecv bufsize (Commands.str s) host port =
      send_commands autorecv bufsize (Commands.seq [s]) host port := rfl

/-- C10: a non-empty command consisting only of whitespace is not skipped:
the loop sends its trimmed content, which is the empty string, and sending
the empty string puts exactly the bare line terminator on the wire. -/
theorem scpi_c10_whitespace_line_sent (autorecv : Bool) (bufsize : Nat)
    (c : List Char) (h1 : c ≠ []) (h2 : ∀ x ∈ c, isPySpace x = true) :
    skipCmd c = false
    ∧ perCommand autorecv bufsize c = [Ev.send []]
    ∧ CustomSocket.send 4096 [] = some (1, [10]) := by
  have hhead : pyStartsWith ['#'] c = false := by
    by_contra hc
    simp only [Bool.not_eq_false] at hc
    rcases pyStartsWith_char hc with ⟨t, rfl⟩
    have := h2 '#' (List.mem_cons_self _ _)
    simp [isPySpace] at this
  have hq : pyEndsWith ['?'] c = false := by
    by_contra hc
    simp only [Bool.not_eq_false] at hc
    have := h2 '?' (pyEndsWith_char_mem hc)
    simp [isPySpace] at this
  have hs : skipCmd c = false := by
    simp [skipCmd, h1, hhead]
  refine ⟨hs, ?_, by decide⟩
  simp [perCommand, hs, hq, pyStrip_eq_nil_of_all_space h2]

/-- Witness for C10 at a concrete input: the bare-newline line read from a
file is sent as the empty command. -/
theorem scpi_c10_whitespace_line_sent_witness :
    skipCmd ['\n'] = false
    ∧ perCommand true 4096 ['\n'] = [Ev.send []]
    ∧ CustomSocket.send 4096 [] = some (1, [10]) :=
  scpi_c10_whitespace_line_sent true 4096 ['\n'] (by decide) (by decide)

/-- C3 counterexample: one iteration of the steady-state polling loop of
main() sends the error query to FG and to PG but contains no receive at
all, so neither query is a send+receive round trip. -/
theorem ctrl_c3_counterexample :
    CtrlEv.send Dev.fg errQuery ∈ loopIteration
    ∧ CtrlEv.send Dev.pg errQuery ∈ loopIteration
    ∧ (∀ e ∈ loopIteration, isRecvCtrl e = false)
    ∧ loopIteration.countP isRecvCtrl = 0 := by
  decide

/-- C3 amended: every iteration of the polling loop sends the error query
to FG, then to PG, then sleeps 10.0 time units; these are plain sends and
no receive is ever performed anywhere in the try block of main(). -/
theorem ctrl_c3_sends_without_recv (n : Nat) :
    tryStream (7 + 3*n) = CtrlEv.send Dev.fg errQuery
    ∧ tryStream (8 + 3*n) = CtrlEv.send Dev.pg errQuery
    ∧ tryStream (9 + 3*n) = CtrlEv.sleepSec 10
    ∧ (∀ k, isRecvCtrl (tryStream k) = false) := by
  refine ⟨?_, ?_, ?_, tryStream_not_recv⟩
  · have h : 7 + 3*n = (3*n) + 7 := by omega
    rw [h]
    simp [tryStream, Nat.mul_mod_right]
  · have h : 8 + 3*n = (1 + 3*n) + 7 := by omega
    have h2 : (1 + 3*n) % 3 = 1 := by omega
    rw [h]
    simp [tryStream, h2]
  · have h : 9 + 3*n = (2 + 3*n) + 7 := by omega
    have h2 : (2 + 3*n) % 3 = 2 := by omega
    rw [h]
    simp [tryStream, h2]

set_option maxRecDepth 30000

/-- C4 counterexample: no fixed truncation marker exists for which the log
line of CustomSocket.send keeps only the first 100 characters of a
too-long string plus that marker — the source logs the full string. -/
theorem scpi_c4_counterexample :
    ¬ ∃ marker : List Char, ∀ s : List Char,
        (sendLogLine [] s).drop 4 =
          if s.length ≤ 100 then s else s.take 100 ++ marker := by
  rintro ⟨m, h⟩
  have h1 := h (List.replicate 150 'a')
  have h2 := h (List.replicate 150 'b')
  have e : ∀ s : List Char, (sendLogLine [] s).drop 4 = s := fun s => rfl
  rw [e, if_neg (by decide)] at h1
  rw [e, if_neg (by decide)] at h2
  have hm : m = List.replicate 50 'a' := by
    have htd : (List.replicate 150 'a').take 100 ++ (List.replicate 150 'a').drop 100 =
        List.replicate 150 'a' := List.take_append_drop 100 _
    have hc := List.append_cancel_left (htd.trans h1)
    rw [← hc]
    decide
  rw [hm] at h2
  exact absurd h2 (by decide)

/-- C4 amended: the log lines of CustomSocket.send and CustomSocket.recv
embed the sent or received string unmodified, whatever its length — the
content after the fixed peer-and-arrow header is exactly the string, and
the log line length accounts for every character.  The wire bytes are
computed from the string alone (src/scpi.py line 132), before and
independently of the logging. -/
theorem scpi_c4_log_unmodified (peer s : List Char) :
    (sendLogLine peer s).drop (peer.length + 4) = s
    ∧ (recvLogLine peer s).drop (peer.length + 4) = s
    ∧ (sendLogLine peer s).length = peer.length + 4 + s.length
    ∧ (recvLogLine peer s).length = peer.length + 4 + s.length := by
  refine ⟨?_, ?_, ?_, ?_⟩
  · rw [show sendLogLine peer s = (peer ++ [' ', '<', '-', ' ']) ++ s by
      simp [sendLogLine]]
    exact List.drop_left' (by simp)
  · rw [show recvLogLine peer s = (peer ++ [' ', '-', '>', ' ']) ++ s by
      simp [recvLogLine]]
    exact List.drop_left' (by simp)
  · simp [sendLogLine]
    omega
  · simp [recvLogLine]
    omega

/-- C5: every call of CustomSocket.close raises TypeError, because
`self.shutdown()` omits the required `how` argument of
`socket.shutdown`; `super().close()` is never reached, so the socket
state — in particular whether the connection was released — is left
exactly as it was. -/
theorem scpi_c5_close_always_raises (st : SockState) :
    CustomSocket.close st = (some PyErr.typeError, st)
    ∧ (CustomSocket.close st).2.released = st.released :=
  ⟨rfl, rfl⟩

/-- C9: whatever the outcome of the command loop of send_commands — clean
completion or a send or receive failing partway — the scoped exit calls
CustomSocket.close, which raises TypeError before `super().close()`, so
the whole call ends in TypeError and the fresh connection opened by
connect() is never released by the call. -/
theorem scpi_c9_connection_leaked (bodyErr : Option PyErr) :
    withConnect bodyErr = (some PyErr.typeError, ⟨false⟩)
    ∧ ((withConnect bodyErr).2).released = false :=
  ⟨rfl, rfl⟩

/-- C6: whenever an Operator Interrupt arrives after any number `k` of try
block steps of main() — from the confirmation prompt onward, including
arbitrarily many polling iterations — everything that follows the
interrupt point is exactly: the interrupted notice, one reset replay of
the FG initialization file, then one reset replay of the PG
initialization file, then the scoped close of the two sockets; and the
notice appears exactly once in the whole run. -/
theorem ctrl_c6_interrupt_reset (k : Nat) :
    (mainInterruptedTrace k).drop (7 + k) =
      [CtrlEv.notice,
       sendFrom Dev.fg fgInitPath,
       sendFrom Dev.pg pgInitPath,
       CtrlEv.closeDev Dev.pg,
       CtrlEv.closeDev Dev.fg]
    ∧ (mainInterruptedTrace k).countP isNoticeEv = 1 := by
  constructor
  · rw [mainInterruptedTrace, ← List.append_assoc]
    refine List.drop_left' ?_
    simp [setupTrace]
    omega
  · rw [mainInterruptedTrace]
    rw [List.countP_append, List.countP_append]
    have h1 : setupTrace.countP isNoticeEv = 0 := by decide
    have h2 : ((List.range k).map tryStream).countP isNoticeEv = 0 := by
      rw [List.countP_eq_zero]
      intro e he
      rcases List.mem_map.mp he with ⟨n, _, rfl⟩
      simp [tryStream_not_notice]
    rw [h1, h2]
    decide

/-- C7 counterexample: when the kernel accepts only one byte of the
three-byte encoded buffer, CustomSocket.send transmits a single byte and
returns 1, not the length of the encoded line plus terminator. -/
theorem scpi_c7_counterexample :
    CustomSocket.send 1 (['A', 'B']) = some (1, [65])
    ∧ CustomSocket.send 1 (['A', 'B']) ≠
        some ((['A', 'B'] : List Char).length + 1, [65, 66, 10]) := by
  decide

/-- Ascii encoding of a string of characters with code points up to 127
is one byte per character. -/
theorem asciiEncode_of_all {s : List Char} (h : ∀ c ∈ s, c.toNat ≤ 127) :
    asciiEncode s = some (s.map Char.toNat) := by
  induction s with
  | nil => rfl
  | cons a t ih =>
    simp [asciiEncode, h a (List.mem_cons_self a t),
      ih (fun c hc => h c (List.mem_cons_of_mem a hc))]

/-- C7 amended: for an ascii-encodable string, CustomSocket.send appends
exactly one line terminator and encodes one byte per character; the
underlying socket send transmits min(accepted, length + 1) bytes and the
method returns that count, which equals the encoded length (the string
length plus one) exactly when the kernel accepts the whole buffer — in
that case all bytes go on the wire. -/
theorem scpi_c7_send_characterization (accept : Nat) (s : List Char)
    (h : ∀ c ∈ s, c.toNat ≤ 127) :
    asciiEncode (s ++ [ENDCHAR]) = some (s.map Char.toNat ++ [10])
    ∧ CustomSocket.send accept s =
        some (min accept (s.length + 1),
          (s.map Char.toNat ++ [10]).take (min accept (s.length + 1)))
    ∧ (s.length + 1 ≤ accept →
        CustomSocket.send accept s = some (s.length + 1, s.map Char.toNat ++ [10])) := by
  have hall : ∀ c ∈ s ++ [ENDCHAR], c.toNat ≤ 127 := by
    intro c hc
    rcases List.mem_append.mp hc with h1 | h1
    · exact h c h1
    · simp only [List.mem_singleton] at h1
      subst h1
      decide
  have henc : asciiEncode (s ++ [ENDCHAR]) = some (s.map Char.toNat ++ [10]) := by
    rw [asciiEncode_of_all hall, List.map_append]
    rfl
  have hsend : CustomSocket.send accept s =
      some (min accept (s.length + 1),
        (s.map Char.toNat ++ [10]).take (min accept (s.length + 1))) := by
    rw [CustomSocket.send, henc]
    simp [osSend]
  refine ⟨henc, hsend, ?_⟩
  intro hle
  rw [hsend, Nat.min_eq_right hle]
  rw [List.take_of_length_le (by simp)]

/-- Witness for C7 at a concrete input: sending OK with the kernel
accepting the whole buffer returns 3 and puts the two bytes plus the
terminator on the wire. -/
theorem scpi_c7_send_characterization_witness :
    asciiEncode ((['O', 'K'] : List Char) ++ [ENDCHAR]) =
        some ((['O', 'K'] : List Char).map Char.toNat ++ [10])
    ∧ CustomSocket.send 4096 (['O', 'K']) =
        some (min 4096 ((['O', 'K'] : List Char).length + 1),
          ((['O', 'K'] : List Char).map Char.toNat ++ [10]).take
            (min 4096 ((['O', 'K'] : List Char).length + 1)))
    ∧ ((['O', 'K'] : List Char).length + 1 ≤ 4096 →
        CustomSocket.send 4096 (['O', 'K']) =
          some ((['O', 'K'] : List Char).length + 1,
            (['O', 'K'] : List Char).map Char.toNat ++ [10])) :=
  scpi_c7_send_characterization 4096 (['O', 'K']) (by decide)
